import Mathlib

/-!
Verification development for `src/server/src/core/server/app/helpers/manifestLoader.ts`:
a shallow embedding of the manifest loader (file mode and webpack-dev-server polling
mode) together with theorems about its validation, retry/backoff and entrypoint
lookup behaviour.

Modelling conventions:
- A JS object used as an ordered string-keyed mapping is modelled as an association
  list `List (String × _)`; its head is the first entry by iteration order
  (`Object.keys(...)[0]`).
- A JSON field that may be absent (or `null`/`undefined`) is an `Option`.
  JS truthiness matters: `!x` is true for `undefined`/`null` (modelled `none`)
  and for the empty string, but an empty array `[]` is truthy.
- The network is modelled by a script: a list of `FetchOutcome`s, one per `fetch`
  call, consumed in order. `waitFor` (from `coral-common`, not among the sources)
  is modelled by recording the requested delay in milliseconds as a rational.
- A thrown JS exception is an explicit `throwErr`/`failure` value carrying the
  message; a rejected promise propagates it to the caller.
-/

/-- An asset entry `{src, integrity}` of the manifest. -/
structure Asset where
  src : String
  integrity : String
deriving DecidableEq, Repr

/-- The `assets` groups of a raw entrypoint. Each group may be absent
(`undefined` in JS, hence `Option`); an empty list is a present group. -/
structure AssetGroups where
  js : Option (List Asset)
  css : Option (List Asset)
deriving DecidableEq, Repr

/-- A raw entrypoint descriptor as produced by the webpack plugin:
`{assets: {js: [...], css: [...]}}`. -/
structure RawEntrypoint where
  assets : AssetGroups
deriving DecidableEq, Repr

/-- The full raw manifest. `entrypoints` is the reserved key mapping entrypoint
name to raw descriptor, iteration-ordered; `none` models the key being absent
(or `null`). `files` models the remaining path-keyed `{src, integrity}` entries. -/
structure Manifest where
  entrypoints : Option (List (String × RawEntrypoint))
  files : List (String × Asset)
deriving DecidableEq, Repr

/-- The normalized per-entrypoint view: ordered JS and CSS asset lists. -/
structure Entrypoint where
  js : List Asset
  css : List Asset
deriving DecidableEq, Repr

/-- Modelled from the spec: the `Entrypoints` index class is imported from
`./entrypoints`, a file not among the provided sources. Per the spec (§4.2) it
is built once per `Manifest` and normalizes each raw entrypoint's asset-group
structure into the `{js: [...], css: [...]}` shape, order preserved, with
`get name` returning the `Entrypoint` or `null` for unknown names. -/
structure Entrypoints where
  manifest : Manifest
deriving DecidableEq, Repr

/-- Modelled from the spec: normalization of one raw descriptor (absent groups
become empty lists, ordering preserved). -/
def Entrypoints.normalize (r : RawEntrypoint) : Entrypoint :=
  { js := r.assets.js.getD [], css := r.assets.css.getD [] }

/-- Modelled from the spec: `get(name)` looks `name` up in the manifest's
`entrypoints` mapping, returning `null` (here `none`) for unknown names. -/
def Entrypoints.get (eps : Entrypoints) (name : String) : Option Entrypoint :=
  match eps.manifest.entrypoints with
  | none => none
  | some es => (es.lookup name).map Entrypoints.normalize

/-- `INVALID_MANIFEST_MAX_RETRIES` from the source (line 20). -/
def INVALID_MANIFEST_MAX_RETRIES : Nat := 9999

/-- Message of the error thrown when the invalid-manifest ceiling is exceeded
(source line 130). -/
def invalidManifestMessage : String := "Invalid manifest while loading"

/-- Message of the TypeError raised when `manifest.entrypoints` is a present but
empty mapping: `Object.keys(manifest.entrypoints)[0]` is `undefined`, so the
subsequent `.assets` access throws. -/
def typeErrorMessage : String := "TypeError: cannot read assets of undefined"

/-- One scripted outcome of a `fetch` of the manifest URL: either a non-2xx
response (`res.ok` false) or a 2xx response whose JSON body parsed to `m`. -/
inductive FetchOutcome where
  | httpError
  | body (m : Manifest)
deriving DecidableEq, Repr

/-- The result of one `fetchManifest()` call: returned `null` (retry), returned
a manifest, or threw. -/
inductive FetchStep where
  | retry
  | ok (m : Manifest)
  | throwErr (msg : String)
deriving DecidableEq, Repr

/-- Embedding of the inner `fetchManifest` closure (source lines 112-145),
parameterized by the retry ceiling and the current value of the instance field
`invalidManifestCounter`; returns the updated counter and the step result.

- non-2xx: log and return `null` (counter untouched);
- `!manifest.entrypoints`: invalid, counter incremented, throw past the ceiling,
  otherwise `null`;
- present but empty `entrypoints`: `Object.keys(...)[0]` is `undefined` and
  `manifest.entrypoints[undefined].assets` throws a TypeError;
- first entry's `assets.js` absent (`!...assets.js`; note `[]` is truthy):
  invalid, counter incremented, throw past the ceiling, otherwise `null`;
- otherwise the counter is reset to 0 and the second check runs:
  `!firstEntrypoint || !manifest.entrypoints[firstEntrypoint].assets.js`, whose
  only remaining effect is `!firstEntrypoint`, true exactly for the empty-string
  key, giving `null`; else the manifest is returned. -/
def fetchManifest (maxRetries counter : Nat) (o : FetchOutcome) : Nat × FetchStep :=
  match o with
  | .httpError => (counter, .retry)
  | .body manifest =>
    match manifest.entrypoints with
    | none =>
      if counter + 1 > maxRetries then (counter + 1, .throwErr invalidManifestMessage)
      else (counter + 1, .retry)
    | some [] => (counter, .throwErr typeErrorMessage)
    | some ((k, e) :: _) =>
      if e.assets.js.isNone then
        if counter + 1 > maxRetries then (counter + 1, .throwErr invalidManifestMessage)
        else (counter + 1, .retry)
      else if k = "" then (0, .retry)
      else (0, .ok manifest)

/-- Terminal status of the dev-mode retry loop on a finite script: resolved with
a manifest, rejected with an error message, or still polling (the script was
exhausted while the loop was waiting to retry — the loop itself never gives up). -/
inductive LoadResult where
  | success (m : Manifest)
  | failure (msg : String)
  | pending
deriving DecidableEq, Repr

/-- Embedding of `fetchManifestAndRetry` (source lines 148-158) run against a
script of fetch outcomes: returns the final counter, the list of backoff delays
awaited (in ms), and the terminal status. On a `null` step it waits `waitForMS`
and recurses with `waitForMS * 1.5`. -/
def fetchManifestAndRetry (maxRetries counter : Nat) (waitForMS : ℚ) :
    List FetchOutcome → Nat × List ℚ × LoadResult
  | [] => (counter, [], .pending)
  | o :: rest =>
    match fetchManifest maxRetries counter o with
    | (c, .ok m) => (c, [], .success m)
    | (c, .throwErr msg) => (c, [], .failure msg)
    | (c, .retry) =>
      let r := fetchManifestAndRetry maxRetries c (waitForMS * 3 / 2) rest
      (r.1, waitForMS :: r.2.1, r.2.2)

/-- Number of `fetch` calls a retry-loop run performed: one per recorded wait,
plus the final one when the loop terminated (resolved or threw). -/
def fetchCount (r : Nat × List ℚ × LoadResult) : Nat :=
  r.2.1.length + (match r.2.2 with | .pending => 0 | _ => 1)

/-- `ManifestLoaderOptions` from the source (lines 38-44). -/
structure ManifestLoaderOptions where
  fromWebpackDevServerURL : Option String
  injectWebpackDevServerBundle : Bool
deriving DecidableEq, Repr

/-- The instance fields of `ManifestLoader` (source lines 81-86). -/
structure ManifestLoaderState where
  manifestFilename : String
  options : ManifestLoaderOptions
  manifest : Option Manifest
  entrypoints : Option Entrypoints
  invalidManifestCounter : Nat
deriving DecidableEq, Repr

/-- Embedding of `loadManifestFromFile` (source lines 48-80): the filesystem is
abstracted as a map from filename to the parse result of the manifest file at
the fixed derived path (`none` = missing, unreadable or invalid JSON, in which
case the function logs and returns `null`). -/
def loadManifestFromFile (fileSystem : String → Option Manifest)
    (manifestFilename : String) : Option Manifest :=
  fileSystem manifestFilename

/-- Embedding of the `ManifestLoader` constructor (source lines 88-107). In file
mode (no dev-server URL) the manifest is read and parsed eagerly, the
`Entrypoints` index is built and both are cached; a failed read throws. In dev
mode nothing is loaded eagerly. -/
def ManifestLoader.construct (fileSystem : String → Option Manifest)
    (manifestFilename : String) (options : ManifestLoaderOptions) :
    Except String ManifestLoaderState :=
  match options.fromWebpackDevServerURL with
  | some _ =>
    .ok { manifestFilename := manifestFilename, options := options,
          manifest := none, entrypoints := none, invalidManifestCounter := 0 }
  | none =>
    match loadManifestFromFile fileSystem manifestFilename with
    | none => .error ("Failed to load manifest file " ++ manifestFilename)
    | some m =>
      .ok { manifestFilename := manifestFilename, options := options,
            manifest := some m, entrypoints := some ⟨m⟩, invalidManifestCounter := 0 }

/-- Embedding of `ManifestLoader.load` (source lines 109-166). Dev mode runs the
retry loop (initial backoff 1000ms) against the script, persisting the counter
back into the instance state; file mode returns the cached manifest with no
fetches and no waits (the script is ignored: no I/O occurs). -/
def ManifestLoader.load (st : ManifestLoaderState) (script : List FetchOutcome) :
    ManifestLoaderState × List ℚ × LoadResult :=
  match st.options.fromWebpackDevServerURL with
  | some _ =>
    let r := fetchManifestAndRetry INVALID_MANIFEST_MAX_RETRIES
      st.invalidManifestCounter 1000 script
    ({ st with invalidManifestCounter := r.1 }, r.2.1, r.2.2)
  | none =>
    match st.manifest with
    | some m => (st, [], .success m)
    | none => (st, [], .failure "Failed to load entrypoint")

/-- The closure returned by `createEntrypointLoader` (source lines 168-191):
in file mode a constant accessor over the value computed once at creation time;
in dev mode a closure that re-runs `load()` on each call. -/
inductive EntrypointLoader where
  | const (value : Option Entrypoint)
  | dev (name : String)
deriving DecidableEq, Repr

/-- Embedding of `ManifestLoader.createEntrypointLoader` (source lines 168-191):
dev mode returns the re-fetching closure; file mode looks `name` up in the
cached index once and returns a constant accessor; with no cached index it
throws. -/
def ManifestLoader.createEntrypointLoader (st : ManifestLoaderState)
    (name : String) : Except String EntrypointLoader :=
  match st.options.fromWebpackDevServerURL with
  | some _ => .ok (.dev name)
  | none =>
    match st.entrypoints with
    | some eps => .ok (.const (eps.get name))
    | none => .error ("Failed to load entrypoint " ++ name)

/-- Result of invoking an entrypoint accessor: resolved with an entrypoint or
`null`, rejected with an error, or still polling when the script ran out. -/
inductive EpResult where
  | resolved (e : Option Entrypoint)
  | failure (msg : String)
  | pending
deriving DecidableEq, Repr

/-- The dev-bundle injection step (source lines 172-181): when an entrypoint was
found and `injectWebpackDevServerBundle` is set, append
`{src: "webpack-dev-server.js", integrity: ""}` to its JS list; a `null`
lookup stays `null`. -/
def injectDevServerBundleAsset (inject : Bool) (entrypoint : Option Entrypoint) :
    Option Entrypoint :=
  match entrypoint with
  | some e =>
    if inject then some { js := e.js ++ [⟨"webpack-dev-server.js", ""⟩], css := e.css }
    else some e
  | none => none

/-- Invoking the accessor returned by `createEntrypointLoader`. The constant
file-mode accessor resolves immediately to its captured value. The dev-mode
closure calls `load()` (consuming the script), indexes the fresh manifest,
looks up its name and applies the injection step. -/
def EntrypointLoader.invoke (l : EntrypointLoader) (st : ManifestLoaderState)
    (script : List FetchOutcome) : ManifestLoaderState × List ℚ × EpResult :=
  match l with
  | .const v => (st, [], .resolved v)
  | .dev name =>
    let r := ManifestLoader.load st script
    match r.2.2 with
    | .success m =>
      (r.1, r.2.1, .resolved (injectDevServerBundleAsset
        st.options.injectWebpackDevServerBundle (Entrypoints.get ⟨m⟩ name)))
    | .failure msg => (r.1, r.2.1, .failure msg)
    | .pending => (r.1, r.2.1, .pending)

/-- Whether a fetch outcome is a manifest response passing the first validity
check (`entrypoints` present and nonempty, first entry's `js` group present):
exactly the responses that reset the invalid-manifest counter. -/
def outcomeValid : FetchOutcome → Bool
  | .body m =>
    match m.entrypoints with
    | some ((_, e) :: _) => e.assets.js.isSome
    | _ => false
  | .httpError => false

/-- Whether a fetch outcome is an invalid manifest response in the sense of the
counter: one that increments `invalidManifestCounter` (absent `entrypoints`, or
first entry's `js` group absent). A non-2xx response is not a manifest response
and an empty `entrypoints` mapping throws before reaching the counter. -/
def outcomeInvalidManifest : FetchOutcome → Bool
  | .body m =>
    match m.entrypoints with
    | none => true
    | some [] => false
    | some ((_, e) :: _) => e.assets.js.isNone
  | .httpError => false

/-- The run length of invalid manifest responses at the end of a script, seeded
with `c`: reset to 0 by each valid manifest response, incremented by each
invalid one, unchanged by the rest. Mirrors the evolution of
`invalidManifestCounter`. -/
def consecInvalid (c : Nat) : List FetchOutcome → Nat
  | [] => c
  | o :: rest =>
    consecInvalid
      (if outcomeValid o then 0 else if outcomeInvalidManifest o then c + 1 else c) rest

/-- The variant of `fetchManifest` with only the first validity check: after the
counter reset the manifest is returned unconditionally, without the second
`!firstEntrypoint || !manifest.entrypoints[firstEntrypoint].assets.js` check
(source lines 136-143). Used to compare the two-check code with the
one-check refinement. -/
def fetchManifestFirstCheckOnly (maxRetries counter : Nat) (o : FetchOutcome) :
    Nat × FetchStep :=
  match o with
  | .httpError => (counter, .retry)
  | .body manifest =>
    match manifest.entrypoints with
    | none =>
      if counter + 1 > maxRetries then (counter + 1, .throwErr invalidManifestMessage)
      else (counter + 1, .retry)
    | some [] => (counter, .throwErr typeErrorMessage)
    | some ((_, e) :: _) =>
      if e.assets.js.isNone then
        if counter + 1 > maxRetries then (counter + 1, .throwErr invalidManifestMessage)
        else (counter + 1, .retry)
      else (0, .ok manifest)

/-- Whether the first entrypoint key of a fetched manifest body is the empty
string (the only way a manifest can pass the first validity check and still be
rejected by the second). -/
def firstKeyIsEmpty : FetchOutcome → Bool
  | .body m =>
    match m.entrypoints with
    | some ((k, _) :: _) => k = ""
    | _ => false
  | .httpError => false

/-! ### Concrete fixtures used by counterexamples and witnesses -/

/-- A concrete JS asset. -/
def mainAsset : Asset := ⟨"main.js", "sha256-abc"⟩

/-- A manifest that is valid and ready: one entrypoint `main` with one JS asset. -/
def validManifestEx : Manifest :=
  { entrypoints := some [("main", ⟨⟨some [mainAsset], some []⟩⟩)], files := [] }

/-- A not-yet-ready manifest: entrypoint `main` has no `js` group at all. -/
def notReadyManifestEx : Manifest :=
  { entrypoints := some [("main", ⟨⟨none, none⟩⟩)], files := [] }

/-- A manifest whose `entrypoints` key is absent. -/
def absentEntrypointsManifestEx : Manifest := { entrypoints := none, files := [] }

/-- A manifest whose `entrypoints` mapping is present but empty. -/
def emptyEntrypointsManifestEx : Manifest := { entrypoints := some [], files := [] }

/-- A well-formed manifest whose first entrypoint has a present but empty JS
asset list. -/
def emptyJsManifestEx : Manifest :=
  { entrypoints := some [("main", ⟨⟨some [], some []⟩⟩)], files := [] }

/-- A manifest passing the first validity check whose first entrypoint key is
the empty string. -/
def emptyKeyManifestEx : Manifest :=
  { entrypoints := some [("", ⟨⟨some [mainAsset], none⟩⟩)], files := [] }

/-- Options selecting file mode. -/
def exampleFileOptions : ManifestLoaderOptions := ⟨none, false⟩

/-- A filesystem containing one parseable manifest file. -/
def exampleFileSystem : String → Option Manifest :=
  fun s => if s = "asset-manifest.json" then some validManifestEx else none

/-- The loader state produced by the constructor in file mode on
`exampleFileSystem`. -/
def exampleFileState : ManifestLoaderState :=
  ⟨"asset-manifest.json", exampleFileOptions, some validManifestEx,
   some ⟨validManifestEx⟩, 0⟩

/-- Options selecting dev-server mode with bundle injection. -/
def exampleDevOptions : ManifestLoaderOptions := ⟨some "http://127.0.0.1:8080", true⟩

/-- A fresh dev-mode loader state (nothing cached, counter 0). -/
def exampleDevState : ManifestLoaderState :=
  ⟨"asset-manifest.json", exampleDevOptions, none, none, 0⟩

/-! ### Claim theorems -/

/-- C1 (counterexample): a fetched body whose `entrypoints` mapping is present
but empty does NOT increment the counter and return null — the validation
expression throws a TypeError (the counter stays 0) and the retry loop turns it
into a rejection surfaced to the caller, contradicting the claim. -/
theorem C1_counterexample :
    fetchManifest INVALID_MANIFEST_MAX_RETRIES 0 (FetchOutcome.body emptyEntrypointsManifestEx)
      = (0, FetchStep.throwErr typeErrorMessage) ∧
    fetchManifestAndRetry INVALID_MANIFEST_MAX_RETRIES 0 1000
      [FetchOutcome.body emptyEntrypointsManifestEx]
      = (0, [], LoadResult.failure typeErrorMessage) ∧
    (fetchManifest INVALID_MANIFEST_MAX_RETRIES 0
      (FetchOutcome.body emptyEntrypointsManifestEx)).2 ≠ FetchStep.retry :=
  ⟨rfl, rfl, by decide⟩

/-- C1 (amended): in dev-server mode, a fetched body whose `entrypoints` mapping
is ABSENT is treated as invalid: the counter is incremented and, while it does
not exceed the ceiling, `null` is returned so the retry loop waits the backoff
delay and retries without surfacing an error; a PRESENT but EMPTY `entrypoints`
mapping instead makes the validation expression throw a TypeError. -/
theorem C1_amended_absent_entrypoints (maxR c : Nat) (m : Manifest)
    (hm : m.entrypoints = none) (hc : c + 1 ≤ maxR) :
    fetchManifest maxR c (FetchOutcome.body m) = (c + 1, FetchStep.retry) ∧
    (∀ (w : ℚ) (rest : List FetchOutcome),
      fetchManifestAndRetry maxR c w (FetchOutcome.body m :: rest)
        = ((fetchManifestAndRetry maxR (c + 1) (w * 3 / 2) rest).1,
           w :: (fetchManifestAndRetry maxR (c + 1) (w * 3 / 2) rest).2.1,
           (fetchManifestAndRetry maxR (c + 1) (w * 3 / 2) rest).2.2)) ∧
    (∀ m' : Manifest, m'.entrypoints = some [] →
      fetchManifest maxR c (FetchOutcome.body m')
        = (c, FetchStep.throwErr typeErrorMessage)) := by
  have hstep : fetchManifest maxR c (FetchOutcome.body m) = (c + 1, FetchStep.retry) := by
    simp only [fetchManifest, hm]
    rw [if_neg (by omega)]
  refine ⟨hstep, fun w rest => ?_, fun m' hm' => ?_⟩
  · simp only [fetchManifestAndRetry, hstep]
  · simp only [fetchManifest, hm']

/-- C1 (witness): the amended theorem applied to the concrete manifest with the
`entrypoints` key absent, counter 0 and the real ceiling. -/
theorem C1_amended_witness :
    0 + 1 ≤ 9999 ∧
    fetchManifest 9999 0 (FetchOutcome.body absentEntrypointsManifestEx)
      = (0 + 1, FetchStep.retry) :=
  ⟨by decide,
   (C1_amended_absent_entrypoints 9999 0 absentEntrypointsManifestEx rfl (by decide)).1⟩

/-- C2 (counterexample): a well-formed manifest whose first entrypoint has a
PRESENT but EMPTY JS asset list is NOT rejected: `![]` is false in JS, so it
passes validation and `load()` resolves with it on the first fetch. -/
theorem C2_counterexample :
    fetchManifest INVALID_MANIFEST_MAX_RETRIES 0 (FetchOutcome.body emptyJsManifestEx)
      = (0, FetchStep.ok emptyJsManifestEx) ∧
    fetchManifestAndRetry INVALID_MANIFEST_MAX_RETRIES 0 1000
      [FetchOutcome.body emptyJsManifestEx]
      = (0, [], LoadResult.success emptyJsManifestEx) ∧
    (fetchManifest INVALID_MANIFEST_MAX_RETRIES 0 (FetchOutcome.body emptyJsManifestEx)).2
      ≠ FetchStep.retry :=
  ⟨rfl, rfl, by decide⟩

/-- C2 (amended): the not-ready rejection triggers exactly when the first
entrypoint's `js` asset group is ABSENT (below the ceiling: counter incremented,
retried); when the `js` group is present — even with zero elements — the first
validity check passes (`![]` is false in JS) and the counter is reset: the
manifest is then accepted whenever the first entrypoint key is nonempty, while
an empty-string first key takes the second check's counter-free retry path. -/
theorem C2_amended_missing_js (maxR c : Nat) (m : Manifest) (k : String)
    (e : RawEntrypoint) (tl : List (String × RawEntrypoint))
    (hm : m.entrypoints = some ((k, e) :: tl)) :
    (e.assets.js = none → c + 1 ≤ maxR →
      fetchManifest maxR c (FetchOutcome.body m) = (c + 1, FetchStep.retry)) ∧
    (∀ l : List Asset, e.assets.js = some l → k ≠ "" →
      fetchManifest maxR c (FetchOutcome.body m) = (0, FetchStep.ok m)) ∧
    (∀ l : List Asset, e.assets.js = some l → k = "" →
      fetchManifest maxR c (FetchOutcome.body m) = (0, FetchStep.retry)) := by
  refine ⟨?_, ?_, ?_⟩
  · intro hjs hc
    simp only [fetchManifest, hm, hjs, Option.isNone_none, if_true]
    rw [if_neg (by omega)]
  · intro l hjs hk
    simp [fetchManifest, hm, hjs, hk]
  · intro l hjs hk
    simp [fetchManifest, hm, hjs, hk]

/-- C2 (witness): the amended theorem applied to the missing-js manifest (retry
with counter bumped), to the empty-js manifest (accepted, counter reset), and to
a present-js manifest keyed by the empty string (counter-free retry). -/
theorem C2_amended_witness :
    fetchManifest 9999 0 (FetchOutcome.body notReadyManifestEx) = (0 + 1, FetchStep.retry) ∧
    fetchManifest 9999 5 (FetchOutcome.body emptyJsManifestEx)
      = (0, FetchStep.ok emptyJsManifestEx) ∧
    fetchManifest 9999 5 (FetchOutcome.body emptyKeyManifestEx) = (0, FetchStep.retry) :=
  ⟨(C2_amended_missing_js 9999 0 notReadyManifestEx "main" ⟨⟨none, none⟩⟩ [] rfl).1
      rfl (by decide),
   (C2_amended_missing_js 9999 5 emptyJsManifestEx "main" ⟨⟨some [], some []⟩⟩ [] rfl).2.1
      [] rfl (by decide),
   (C2_amended_missing_js 9999 5 emptyKeyManifestEx "" ⟨⟨some [mainAsset], none⟩⟩ [] rfl).2.2
      [mainAsset] rfl rfl⟩

/-- C5: in dev-server mode a non-2xx HTTP response is a soft failure: the step
returns `null` with the counter untouched, and the retry loop records the
backoff wait and carries on with the same counter — no error reaches the
caller from it. -/
theorem C5_http_error_soft_failure (maxR c : Nat) :
    fetchManifest maxR c FetchOutcome.httpError = (c, FetchStep.retry) ∧
    ∀ (w : ℚ) (rest : List FetchOutcome),
      fetchManifestAndRetry maxR c w (FetchOutcome.httpError :: rest)
        = ((fetchManifestAndRetry maxR c (w * 3 / 2) rest).1,
           w :: (fetchManifestAndRetry maxR c (w * 3 / 2) rest).2.1,
           (fetchManifestAndRetry maxR c (w * 3 / 2) rest).2.2) :=
  ⟨rfl, fun _ _ => rfl⟩

/-- C10 (counterexample): the second readiness check is NOT dead code. The
manifest whose single entrypoint is keyed by the empty string passes the first
check (so the counter is reset), yet `!firstEntrypoint` is true, so the
counter-free retry path IS taken; the one-check variant instead accepts the
manifest, refuting the claimed equivalence. -/
theorem C10_counterexample :
    fetchManifest INVALID_MANIFEST_MAX_RETRIES 0 (FetchOutcome.body emptyKeyManifestEx)
      = (0, FetchStep.retry) ∧
    fetchManifestFirstCheckOnly INVALID_MANIFEST_MAX_RETRIES 0
      (FetchOutcome.body emptyKeyManifestEx)
      = (0, FetchStep.ok emptyKeyManifestEx) ∧
    fetchManifest INVALID_MANIFEST_MAX_RETRIES 0 (FetchOutcome.body emptyKeyManifestEx)
      ≠ fetchManifestFirstCheckOnly INVALID_MANIFEST_MAX_RETRIES 0
          (FetchOutcome.body emptyKeyManifestEx) :=
  ⟨rfl, rfl, by decide⟩

/-- C10 (amended): the second readiness check is redundant except when the first
entrypoint key is the empty string: on every outcome whose first entrypoint key
is not `""`, `fetchManifest` coincides with the variant that has only the first
validity check. -/
theorem C10_amended_equivalence (maxR c : Nat) (o : FetchOutcome)
    (h : firstKeyIsEmpty o = false) :
    fetchManifest maxR c o = fetchManifestFirstCheckOnly maxR c o := by
  cases o with
  | httpError => rfl
  | body m =>
    rcases hme : m.entrypoints with _ | (_ | ⟨⟨k, e⟩, tl⟩)
    · simp [fetchManifest, fetchManifestFirstCheckOnly, hme]
    · simp [fetchManifest, fetchManifestFirstCheckOnly, hme]
    · simp only [firstKeyIsEmpty, hme] at h
      simp [fetchManifest, fetchManifestFirstCheckOnly, hme, of_decide_eq_false h]

/-- C10 (witness): the amended equivalence applied to the valid fixture, whose
first entrypoint key `"main"` is nonempty. -/
theorem C10_amended_witness :
    fetchManifest 9999 0 (FetchOutcome.body validManifestEx)
      = fetchManifestFirstCheckOnly 9999 0 (FetchOutcome.body validManifestEx) :=
  C10_amended_equivalence 9999 0 (FetchOutcome.body validManifestEx) (by decide)

/-! ### Helper lemmas -/

/-- Helper: shifting the geometric backoff schedule by one step multiplies the
initial delay by `3/2`. -/
theorem geom_map_shift (w : ℚ) (n : Nat) :
    (List.range n).map (fun i => w * 3 / 2 * (3 / 2 : ℚ) ^ i)
      = (List.range n).map ((fun i => w * (3 / 2 : ℚ) ^ i) ∘ Nat.succ) := by
  induction n with
  | zero => rfl
  | succ n ih =>
    rw [List.range_succ, List.map_append, List.map_append, ih]
    simp only [List.map_cons, List.map_nil, Function.comp]
    congr 1
    congr 1
    rw [pow_succ]
    ring

/-- Helper: the waits recorded by the retry loop follow the geometric schedule
`w, w * 3/2, w * (3/2)^2, ...`. -/
theorem fetchManifestAndRetry_waits_geometric (maxR : Nat) (script : List FetchOutcome) :
    ∀ (c : Nat) (w : ℚ), ∃ n : Nat,
      (fetchManifestAndRetry maxR c w script).2.1
        = (List.range n).map (fun i => w * (3 / 2 : ℚ) ^ i) := by
  induction script with
  | nil => intro c w; exact ⟨0, rfl⟩
  | cons o rest ih =>
    intro c w
    simp only [fetchManifestAndRetry]
    rcases hf : fetchManifest maxR c o with ⟨c', step⟩
    cases step with
    | ok m => exact ⟨0, rfl⟩
    | throwErr msg => exact ⟨0, rfl⟩
    | retry =>
      obtain ⟨n, hn⟩ := ih c' (w * 3 / 2)
      refine ⟨n + 1, ?_⟩
      simp only [List.range_succ_eq_map, List.map_cons, List.map_map]
      rw [hn]
      simp only [pow_zero, mul_one, geom_map_shift]

/-- Helper: if the retry loop is still pending, it consumed the whole script,
waiting once per consumed outcome. -/
theorem fetchManifestAndRetry_pending_consumes (maxR : Nat) (script : List FetchOutcome) :
    ∀ (c : Nat) (w : ℚ),
      (fetchManifestAndRetry maxR c w script).2.2 = LoadResult.pending →
      (fetchManifestAndRetry maxR c w script).2.1.length = script.length := by
  induction script with
  | nil => intro c w _; rfl
  | cons o rest ih =>
    intro c w h
    simp only [fetchManifestAndRetry] at h ⊢
    rcases hf : fetchManifest maxR c o with ⟨c', step⟩
    cases step with
    | ok m => rw [hf] at h; simp at h
    | throwErr msg => rw [hf] at h; simp at h
    | retry =>
      rw [hf] at h
      dsimp only at h ⊢
      simp only [List.length_cons]
      rw [ih c' (w * 3 / 2) h]

/-- C3: in dev-server mode, given the response sequence [invalid, invalid,
valid], `load()` performs exactly 3 fetches, waits 1000ms then 1500ms between
them, and resolves with the valid manifest of the third fetch; in general the
recorded waits follow the schedule `1000 * 1.5^(n-1)` (here `w * (3/2)^i` from
the initial delay `w`), and a loop that has not terminated has retried once per
consumed response — the attempt count is unbounded except through the
invalid-manifest ceiling. -/
theorem C3_backoff_schedule :
    fetchManifestAndRetry INVALID_MANIFEST_MAX_RETRIES 0 1000
      [FetchOutcome.body notReadyManifestEx, FetchOutcome.body notReadyManifestEx,
       FetchOutcome.body validManifestEx]
      = (0, [1000, 1500], LoadResult.success validManifestEx) ∧
    fetchCount (fetchManifestAndRetry INVALID_MANIFEST_MAX_RETRIES 0 1000
      [FetchOutcome.body notReadyManifestEx, FetchOutcome.body notReadyManifestEx,
       FetchOutcome.body validManifestEx]) = 3 ∧
    (∀ (maxR c : Nat) (w : ℚ) (script : List FetchOutcome), ∃ n : Nat,
      (fetchManifestAndRetry maxR c w script).2.1
        = (List.range n).map (fun i => w * (3 / 2 : ℚ) ^ i)) ∧
    (∀ (maxR c : Nat) (w : ℚ) (script : List FetchOutcome),
      (fetchManifestAndRetry maxR c w script).2.2 = LoadResult.pending →
      (fetchManifestAndRetry maxR c w script).2.1.length = script.length) := by
  refine ⟨?_, rfl,
    fun maxR c w script => fetchManifestAndRetry_waits_geometric maxR script c w,
    fun maxR c w script => fetchManifestAndRetry_pending_consumes maxR script c w⟩
  have s1 : fetchManifest INVALID_MANIFEST_MAX_RETRIES 0 (FetchOutcome.body notReadyManifestEx)
      = (1, FetchStep.retry) := rfl
  have s2 : fetchManifest INVALID_MANIFEST_MAX_RETRIES 1 (FetchOutcome.body notReadyManifestEx)
      = (2, FetchStep.retry) := rfl
  have s3 : fetchManifest INVALID_MANIFEST_MAX_RETRIES 2 (FetchOutcome.body validManifestEx)
      = (0, FetchStep.ok validManifestEx) := rfl
  simp only [fetchManifestAndRetry, s1, s2, s3]
  norm_num

/-- C3 (witness): the general conjuncts applied to a concrete one-element
script of soft failures: the loop is still pending and waited once. -/
theorem C3_backoff_schedule_witness :
    (fetchManifestAndRetry 9999 0 1000 [FetchOutcome.httpError]).2.1.length = 1 :=
  C3_backoff_schedule.2.2.2 9999 0 1000 [FetchOutcome.httpError] rfl

/-- C4: in dev-server mode, once the consecutive invalid-manifest counter
exceeds the ceiling the retry loop throws immediately (rejecting `load()` with
no further wait or retry), while below the ceiling an invalid manifest yields a
`null`-driven retry, never a rejection. -/
theorem C4_invalid_manifest_ceiling (maxR c : Nat) (m : Manifest)
    (hinv : outcomeInvalidManifest (FetchOutcome.body m) = true) :
    (c + 1 > maxR →
      ∀ (w : ℚ) (rest : List FetchOutcome),
        fetchManifestAndRetry maxR c w (FetchOutcome.body m :: rest)
          = (c + 1, [], LoadResult.failure invalidManifestMessage)) ∧
    (c + 1 ≤ maxR →
      fetchManifest maxR c (FetchOutcome.body m) = (c + 1, FetchStep.retry)) := by
  have hstep : fetchManifest maxR c (FetchOutcome.body m)
      = (c + 1,
         if c + 1 > maxR then FetchStep.throwErr invalidManifestMessage
         else FetchStep.retry) := by
    rcases hme : m.entrypoints with _ | (_ | ⟨⟨k, e⟩, tl⟩)
    · rcases Nat.lt_or_ge maxR (c + 1) with hc | hc
      · simp [fetchManifest, hme, hc]
      · simp [fetchManifest, hme, Nat.not_lt.mpr hc]
    · simp [outcomeInvalidManifest, hme] at hinv
    · simp only [outcomeInvalidManifest, hme] at hinv
      rcases Nat.lt_or_ge maxR (c + 1) with hc | hc
      · simp [fetchManifest, hme, hinv, hc]
      · simp [fetchManifest, hme, hinv, Nat.not_lt.mpr hc]
  have hthrow : c + 1 > maxR →
      fetchManifest maxR c (FetchOutcome.body m)
        = (c + 1, FetchStep.throwErr invalidManifestMessage) := by
    intro hc; rw [hstep, if_pos hc]
  refine ⟨fun hc w rest => ?_, fun hc => ?_⟩
  · simp only [fetchManifestAndRetry, hthrow hc]
  · rw [hstep, if_neg (by omega)]

/-- C4 (witness): with the ceiling configured to 2, a third consecutive invalid
manifest rejects the loop at once, while from a fresh counter the same invalid
manifest only triggers a retry. -/
theorem C4_invalid_manifest_ceiling_witness :
    fetchManifestAndRetry 2 2 1000 [FetchOutcome.body notReadyManifestEx]
      = (2 + 1, [], LoadResult.failure invalidManifestMessage) ∧
    fetchManifest 2 0 (FetchOutcome.body notReadyManifestEx) = (0 + 1, FetchStep.retry) :=
  ⟨(C4_invalid_manifest_ceiling 2 2 notReadyManifestEx (by decide)).1 (by decide) 1000 [],
   (C4_invalid_manifest_ceiling 2 0 notReadyManifestEx (by decide)).2 (by decide)⟩

/-- C6: in file mode, a successful construction caches the manifest parsed from
the file, and every subsequent `load()` call returns that same cached manifest
with the state unchanged, consuming no fetch outcomes and recording no waits
(no I/O): repeated calls are idempotent. -/
theorem C6_file_mode_load_idempotent (fileSystem : String → Option Manifest)
    (manifestFilename : String) (options : ManifestLoaderOptions)
    (st : ManifestLoaderState)
    (hdev : options.fromWebpackDevServerURL = none)
    (hok : ManifestLoader.construct fileSystem manifestFilename options = Except.ok st) :
    ∃ m, fileSystem manifestFilename = some m ∧
      ∀ script script' : List FetchOutcome,
        ManifestLoader.load st script = (st, [], LoadResult.success m) ∧
        ManifestLoader.load (ManifestLoader.load st script).1 script'
          = (st, [], LoadResult.success m) := by
  unfold ManifestLoader.construct at hok
  rw [hdev] at hok
  unfold loadManifestFromFile at hok
  cases hfs : fileSystem manifestFilename with
  | none => rw [hfs] at hok; exact absurd hok (by simp)
  | some m =>
    rw [hfs] at hok
    injection hok with hst
    refine ⟨m, rfl, fun script script' => ?_⟩
    subst hst
    constructor <;> simp [ManifestLoader.load, hdev]

/-- C6 (witness): the theorem applied to the concrete example filesystem and the
state its construction produces. -/
theorem C6_file_mode_load_idempotent_witness :
    ∃ m, exampleFileSystem "asset-manifest.json" = some m ∧
      ∀ script script' : List FetchOutcome,
        ManifestLoader.load exampleFileState script
          = (exampleFileState, [], LoadResult.success m) ∧
        ManifestLoader.load (ManifestLoader.load exampleFileState script).1 script'
          = (exampleFileState, [], LoadResult.success m) :=
  C6_file_mode_load_idempotent exampleFileSystem "asset-manifest.json"
    exampleFileOptions exampleFileState rfl rfl

/-- Helper: a key absent from the key list of an association list is not found
by `List.lookup`. -/
theorem lookup_eq_none_of_not_mem_keys {β : Type} (es : List (String × β))
    (name : String) (h : name ∉ es.map Prod.fst) : es.lookup name = none := by
  induction es with
  | nil => rfl
  | cons p tl ih =>
    obtain ⟨k, v⟩ := p
    simp only [List.map_cons, List.mem_cons, not_or] at h
    obtain ⟨h1, h2⟩ := h
    simp only [List.lookup, beq_false_of_ne h1]
    exact ih h2

/-- C7: in file mode, `createEntrypointLoader(name)` returns the constant
accessor over the entrypoint computed once from the cached index; invoking it
never consumes fetch outcomes, waits, or changes state — it always resolves to
that same value — and for a `name` absent from the manifest's entrypoints that
value is `null`, not an error. -/
theorem C7_file_mode_entrypoint_loader (st : ManifestLoaderState) (name : String)
    (eps : Entrypoints)
    (hdev : st.options.fromWebpackDevServerURL = none)
    (heps : st.entrypoints = some eps) :
    ManifestLoader.createEntrypointLoader st name
      = Except.ok (EntrypointLoader.const (eps.get name)) ∧
    (∀ (st' : ManifestLoaderState) (script : List FetchOutcome),
      EntrypointLoader.invoke (EntrypointLoader.const (eps.get name)) st' script
        = (st', [], EpResult.resolved (eps.get name))) ∧
    (name ∉ (eps.manifest.entrypoints.getD []).map Prod.fst → eps.get name = none) := by
  refine ⟨?_, fun st' script => rfl, fun habs => ?_⟩
  · simp [ManifestLoader.createEntrypointLoader, hdev, heps]
  · unfold Entrypoints.get
    cases hme : eps.manifest.entrypoints with
    | none => rfl
    | some es =>
      rw [hme] at habs
      simp only [Option.getD_some] at habs
      dsimp only
      rw [lookup_eq_none_of_not_mem_keys es name habs]
      rfl

/-- C7 (witness): on the concrete file-mode state, requesting the absent
entrypoint name `sidebar` yields an accessor value of `null`. -/
theorem C7_file_mode_entrypoint_loader_witness :
    Entrypoints.get ⟨validManifestEx⟩ "sidebar" = none :=
  (C7_file_mode_entrypoint_loader exampleFileState "sidebar" ⟨validManifestEx⟩
    rfl rfl).2.2 (by decide)

/-- C8: when `injectWebpackDevServerBundle` is set, the dev-mode accessor
appends `{src: "webpack-dev-server.js", integrity: ""}` as the last element of
the found entrypoint's JS list; a `null` lookup stays `null` and uninjected;
and in file mode the accessor is the constant over the plain cached lookup, so
no injection ever happens there. -/
theorem C8_dev_bundle_injection (st : ManifestLoaderState) (url : String)
    (name : String)
    (hdev : st.options.fromWebpackDevServerURL = some url) :
    ManifestLoader.createEntrypointLoader st name
      = Except.ok (EntrypointLoader.dev name) ∧
    (∀ (script : List FetchOutcome) (m : Manifest),
      (ManifestLoader.load st script).2.2 = LoadResult.success m →
      EntrypointLoader.invoke (EntrypointLoader.dev name) st script
        = ((ManifestLoader.load st script).1, (ManifestLoader.load st script).2.1,
           EpResult.resolved (injectDevServerBundleAsset
             st.options.injectWebpackDevServerBundle (Entrypoints.get ⟨m⟩ name)))) ∧
    (∀ e : Entrypoint, injectDevServerBundleAsset true (some e)
        = some { js := e.js ++ [⟨"webpack-dev-server.js", ""⟩], css := e.css }) ∧
    (∀ inject : Bool, injectDevServerBundleAsset inject none = none) ∧
    (∀ (stf : ManifestLoaderState) (eps : Entrypoints),
      stf.options.fromWebpackDevServerURL = none → stf.entrypoints = some eps →
      ManifestLoader.createEntrypointLoader stf name
        = Except.ok (EntrypointLoader.const (eps.get name))) := by
  refine ⟨?_, fun script m hsuc => ?_, fun e => rfl, fun inject => rfl,
    fun stf eps h1 h2 => ?_⟩
  · simp [ManifestLoader.createEntrypointLoader, hdev]
  · simp only [EntrypointLoader.invoke]
    rw [hsuc]
  · simp [ManifestLoader.createEntrypointLoader, h1, h2]

/-- C8 (witness): invoking the dev accessor on the concrete dev state (inject
flag set) against a script delivering the valid manifest. -/
theorem C8_dev_bundle_injection_witness :
    EntrypointLoader.invoke (EntrypointLoader.dev "main") exampleDevState
      [FetchOutcome.body validManifestEx]
      = ((ManifestLoader.load exampleDevState [FetchOutcome.body validManifestEx]).1,
         (ManifestLoader.load exampleDevState [FetchOutcome.body validManifestEx]).2.1,
         EpResult.resolved (injectDevServerBundleAsset
           exampleDevState.options.injectWebpackDevServerBundle
           (Entrypoints.get ⟨validManifestEx⟩ "main"))) :=
  (C8_dev_bundle_injection exampleDevState "http://127.0.0.1:8080" "main" rfl).2.1
    [FetchOutcome.body validManifestEx] validManifestEx rfl

/-- Helper: an invalid manifest response (in the counter sense) never passes
the validity check. -/
theorem outcomeInvalidManifest_not_valid (o : FetchOutcome)
    (h : outcomeInvalidManifest o = true) : outcomeValid o = false := by
  cases o with
  | httpError => rfl
  | body m =>
    rcases hme : m.entrypoints with _ | (_ | ⟨⟨k, e⟩, tl⟩)
    · simp [outcomeValid, hme]
    · simp [outcomeInvalidManifest, hme] at h
    · simp only [outcomeInvalidManifest, hme] at h
      simp only [outcomeValid, hme]
      cases hjs : e.assets.js with
      | none => rfl
      | some l => rw [hjs] at h; simp at h

/-- Helper: when `fetchManifest` returns `null` (retry), the new counter is 0
after a valid manifest, the old counter plus one after an invalid manifest, and
the old counter otherwise. -/
theorem fetchManifest_retry_counter (maxR c : Nat) (o : FetchOutcome) (c' : Nat)
    (h : fetchManifest maxR c o = (c', FetchStep.retry)) :
    c' = if outcomeValid o then 0 else if outcomeInvalidManifest o then c + 1 else c := by
  cases o with
  | httpError =>
    simp only [fetchManifest, Prod.mk.injEq] at h
    simp [outcomeValid, outcomeInvalidManifest, h.1.symm]
  | body m =>
    rcases hme : m.entrypoints with _ | (_ | ⟨⟨k, e⟩, tl⟩)
    · simp only [fetchManifest, hme] at h
      split at h
      · simp at h
      · simp only [Prod.mk.injEq] at h
        simp [outcomeValid, outcomeInvalidManifest, hme, h.1.symm]
    · simp only [fetchManifest, hme] at h
      simp at h
    · simp only [fetchManifest, hme] at h
      cases hjs : e.assets.js with
      | none =>
        rw [hjs] at h
        simp only [Option.isNone_none, if_true] at h
        split at h
        · simp at h
        · simp only [Prod.mk.injEq] at h
          simp [outcomeValid, outcomeInvalidManifest, hme, hjs, h.1.symm]
      | some l =>
        rw [hjs] at h
        simp only [Option.isNone_some, Bool.false_eq_true, if_false] at h
        split at h
        · simp only [Prod.mk.injEq] at h
          simp [outcomeValid, hme, hjs, h.1.symm]
        · simp at h

/-- Helper: `fetchManifest` throws the invalid-manifest error exactly on an
invalid manifest response with the incremented counter past the ceiling. -/
theorem fetchManifest_throw_invalid (maxR c : Nat) (o : FetchOutcome) (c' : Nat)
    (h : fetchManifest maxR c o = (c', FetchStep.throwErr invalidManifestMessage)) :
    outcomeInvalidManifest o = true ∧ c' = c + 1 ∧ maxR < c + 1 := by
  cases o with
  | httpError => simp [fetchManifest] at h
  | body m =>
    rcases hme : m.entrypoints with _ | (_ | ⟨⟨k, e⟩, tl⟩)
    · simp only [fetchManifest, hme] at h
      split at h
      · rename_i hc
        simp only [Prod.mk.injEq] at h
        exact ⟨by simp [outcomeInvalidManifest, hme], h.1.symm, hc⟩
      · simp at h
    · simp only [fetchManifest, hme, Prod.mk.injEq, FetchStep.throwErr.injEq] at h
      exact absurd h.2 (by decide)
    · simp only [fetchManifest, hme] at h
      cases hjs : e.assets.js with
      | none =>
        rw [hjs] at h
        simp only [Option.isNone_none, if_true] at h
        split at h
        · rename_i hc
          simp only [Prod.mk.injEq] at h
          exact ⟨by simp [outcomeInvalidManifest, hme, hjs], h.1.symm, hc⟩
        · simp at h
      | some l =>
        rw [hjs] at h
        simp only [Option.isNone_some, Bool.false_eq_true, if_false] at h
        split at h
        · simp at h
        · simp at h

/-- Helper: the retry loop rejects with the invalid-manifest error only if some
consumed prefix of the script ends in a counter-sense run of invalid manifest
responses longer than the ceiling (seeded with the incoming counter). -/
theorem ceiling_reject_needs_invalid_run (maxR : Nat) :
    ∀ (script : List FetchOutcome) (c : Nat) (w : ℚ),
      (fetchManifestAndRetry maxR c w script).2.2
        = LoadResult.failure invalidManifestMessage →
      ∃ n : Nat, maxR < consecInvalid c (script.take n) := by
  intro script
  induction script with
  | nil => intro c w h; simp [fetchManifestAndRetry] at h
  | cons o rest ih =>
    intro c w h
    simp only [fetchManifestAndRetry] at h
    rcases hf : fetchManifest maxR c o with ⟨c', step⟩
    cases step with
    | ok m => rw [hf] at h; simp at h
    | throwErr msg =>
      rw [hf] at h
      simp only at h
      -- h : LoadResult.failure msg = LoadResult.failure invalidManifestMessage
      have hmsg : msg = invalidManifestMessage := by
        have := h
        simp only [LoadResult.failure.injEq] at this
        exact this
      subst hmsg
      obtain ⟨hinv, hc', hceil⟩ := fetchManifest_throw_invalid maxR c o c' hf
      refine ⟨1, ?_⟩
      simp only [List.take_succ_cons, List.take_zero, consecInvalid,
        outcomeInvalidManifest_not_valid o hinv, hinv]
      simpa using hceil
    | retry =>
      rw [hf] at h
      dsimp only at h
      obtain ⟨n, hn⟩ := ih c' (w * 3 / 2) h
      refine ⟨n + 1, ?_⟩
      have hc' := fetchManifest_retry_counter maxR c o c' hf
      simp only [List.take_succ_cons, consecInvalid]
      rw [← hc']
      exact hn

/-- C9: the invalid-manifest counter counts consecutive failures — every
manifest response passing the validity check resets it to 0 — so the retry loop
can only reject with the ceiling error when some consumed prefix of the
responses ends in an unbroken (valid-manifest-free) run of more than
ceiling-many invalid manifest responses. -/
theorem C9_consecutive_invalid_counter :
    (∀ (maxR c : Nat) (o : FetchOutcome), outcomeValid o = true →
      (fetchManifest maxR c o).1 = 0) ∧
    (∀ (maxR : Nat) (script : List FetchOutcome) (c : Nat) (w : ℚ),
      (fetchManifestAndRetry maxR c w script).2.2
        = LoadResult.failure invalidManifestMessage →
      ∃ n : Nat, maxR < consecInvalid c (script.take n)) := by
  constructor
  · intro maxR c o hv
    cases o with
    | httpError => simp [outcomeValid] at hv
    | body m =>
      rcases hme : m.entrypoints with _ | (_ | ⟨⟨k, e⟩, tl⟩)
      · simp [outcomeValid, hme] at hv
      · simp [outcomeValid, hme] at hv
      · simp only [outcomeValid, hme] at hv
        cases hjs : e.assets.js with
        | none => rw [hjs] at hv; simp at hv
        | some l =>
          simp only [fetchManifest, hme, hjs, Option.isNone_some, Bool.false_eq_true,
            if_false]
          split <;> rfl
  · exact fun maxR script c w h => ceiling_reject_needs_invalid_run maxR script c w h

/-- C9 (witness): a passing manifest resets a counter of 5 to 0; and with the
ceiling at 0, a script of one invalid manifest that rejects the loop indeed
contains a prefix with an invalid run longer than the ceiling. -/
theorem C9_consecutive_invalid_counter_witness :
    (fetchManifest 9999 5 (FetchOutcome.body validManifestEx)).1 = 0 ∧
    ∃ n : Nat, 0 < consecInvalid 0 ([FetchOutcome.body notReadyManifestEx].take n) :=
  ⟨C9_consecutive_invalid_counter.1 9999 5 (FetchOutcome.body validManifestEx) (by decide),
   C9_consecutive_invalid_counter.2 0 [FetchOutcome.body notReadyManifestEx] 0 1000
     (by decide)⟩
